import Mathlib

/-!
Verification of the scheduling and autonomous-posting subsystem of Project_X
(`backend/worker/scheduler.py` and the rate-limit checks of
`backend/app/services/x_service.py`), as a shallow embedding.

Modelling conventions:
* naive UTC datetimes are integers (seconds since an epoch); a timezone is
  modelled by its fixed offset from UTC in minutes (`none` models a timezone
  name that `pytz` does not know, which the code maps to UTC);
* database ids (UUID strings in the source) are natural numbers;
* external effects (the filesystem, media upload, token refresh, the publish
  call) enter as oracle fields of an environment record: the embedding records
  which calls would be made and consumes their prescribed results;
* Python exceptions that escape a function are an `Except.error` carrying the
  error text; SQLAlchemy's `scalar_one_or_none` raises on more than one row;
* some result fields (`uploads`, `submissions`, `publish_called`, ...) are
  ghost instrumentation recording which external calls were made.
-/

/-- Digit-string accumulator for the Python `int()` model. -/
def digits_to_nat_aux : List Char → Nat → Option Nat
  | [], acc => some acc
  | c :: cs, acc =>
    if c.isDigit then digits_to_nat_aux cs (acc * 10 + (c.toNat - 48)) else none

/-- A non-empty all-digit character list as a number. -/
def digits_to_nat? : List Char → Option Nat
  | [] => none
  | c :: cs => digits_to_nat_aux (c :: cs) 0

/-- Python `int(s)` on a header string, as used by `can_post_tweet` /
`can_user_post`: an optional minus sign followed by digits.  (Python also
tolerates surrounding whitespace and a leading `+`; those forms do not occur
in rate-limit headers and are not modelled.) -/
def parse_py_int (s : String) : Option Int :=
  match s.toList with
  | [] => none
  | '-' :: rest => (digits_to_nat? rest).map (fun n => -(n : Int))
  | c :: cs => (digits_to_nat? (c :: cs)).map (fun n => (n : Int))

/-- `str.split(sep)` on a character list for a single-character separator. -/
def split_char (sep : Char) : List Char → List (List Char)
  | [] => [[]]
  | c :: cs =>
    let rest := split_char sep cs
    if c == sep then [] :: rest
    else
      match rest with
      | [] => [[c]]
      | g :: gs => (c :: g) :: gs

/-- `hour, minute = map(int, time_str.split(':'))`: exactly two `:`-separated
fields, each a numeral; any other shape raises `ValueError`, which every
caller catches and turns into "skip this entry". -/
def parse_time (s : String) : Option (Nat × Nat) :=
  match split_char ':' s.toList with
  | [h, m] =>
    match digits_to_nat? h, digits_to_nat? m with
    | some hh, some mm => some (hh, mm)
    | _, _ => none
  | _ => none

/-- `campaigns` row (the fields the worker reads). -/
structure Campaign where
  id : Nat
  user_id : Nat
  deriving Repr, DecidableEq

/-- `x_accounts` row (the fields the worker reads). -/
structure XAccount where
  user_id : Nat
  access_token_encrypted : Option String
  deriving Repr, DecidableEq

/-- `media_assets` row.  The model matches `app/db/models.py`: there is no
`file_data` column, so the scheduler's DB-fallback branch that reads
`media_asset.file_data` raises `AttributeError` whenever it is reached. -/
structure MediaAsset where
  id : Nat
  path : String
  type : String
  alt_text : Option String
  x_media_id : Option String
  deriving Repr, DecidableEq

/-- `draft_media_assets` association row. -/
structure DraftMediaAsset where
  id : Nat
  draft_id : Nat
  media_asset_id : Nat
  order_index : Nat
  deriving Repr, DecidableEq

/-- `drafts` row (the fields the worker reads and writes). -/
structure Draft where
  id : Nat
  campaign_id : Nat
  schedule_id : Option Nat
  scheduled_for : Option Int
  variant_index : Nat
  text : String
  char_count : Nat
  hashtags_used : List String
  status : String
  x_post_id : Option String
  posted_at : Option Int
  last_error : Option String
  deriving Repr, DecidableEq

/-- `schedules` row.  `tz_offset` is the schedule's timezone as a fixed UTC
offset in minutes; `none` models an unknown timezone name, for which the code
logs a warning and falls back to UTC (offset 0). -/
structure Schedule where
  id : Nat
  campaign_id : Nat
  tz_offset : Option Int
  times : List String
  recurrence : String
  start_date : Int
  end_date : Option Int
  is_active : Bool
  auto_post : Bool
  daily_limit : Nat
  selected_variant_index : Nat
  post_interval_min : Nat
  post_interval_max : Nat
  deriving Repr, DecidableEq

/-- `post_logs` row together with its structured `details` payload flattened
into fields (`message`, `tweet_id`, `mock`, `media_count`,
`expected_media_count`, `media_errors`).  A details key the source does not
write (e.g. `media_errors` when there were none, or the post-specific keys on
a `scheduled` entry) is modelled by its default value. -/
structure PostLog where
  campaign_id : Nat
  draft_id : Nat
  action : String
  message : String
  tweet_id : Option String
  mock : Bool
  media_count : Nat
  expected_media_count : Nat
  media_errors : List String
  deriving Repr, DecidableEq

/-- The process-local cached state of `XService` that the worker's checks
read: the mock flag, the last observed app-level rate-limit headers, the
per-user rate-limit headers, and the seconds elapsed since the last tweet
(`none` when no tweet was sent yet this process lifetime). -/
structure XServiceState where
  is_mock : Bool
  app_remaining : Option String
  app_reset : Option String
  user_remaining : Nat → Option String
  user_reset : Nat → Option String
  last_tweet_elapsed : Option Nat

/-- `XService.can_post_tweet` (x_service.py): compare the cached app-level
`remaining` header against the safety buffer; unknown or unparsable info
passes optimistically. -/
def can_post_tweet (svc : XServiceState) (safety_buffer : Int) : Bool × String :=
  if svc.is_mock then (true, "Mock mode - no limits")
  else
    match svc.app_remaining with
    | none => (true, "No rate limit info available")
    | some remaining =>
      match parse_py_int remaining with
      | none => (true, "Could not parse rate limit")
      | some r =>
        if r ≤ safety_buffer then
          (false, "Rate limit nearly exhausted (" ++ toString r ++
            " remaining). Resets at " ++ svc.app_reset.getD "unknown")
        else (true, toString r ++ " tweets remaining")

/-- `XService.can_user_post` (x_service.py): the per-user analogue. -/
def can_user_post (svc : XServiceState) (user_id : Nat) (safety_buffer : Int) :
    Bool × String :=
  if svc.is_mock then (true, "Mock mode - no limits")
  else
    match svc.user_remaining user_id with
    | none => (true, "No user rate limit info available")
    | some remaining =>
      match parse_py_int remaining with
      | none => (true, "Could not parse user rate limit")
      | some r =>
        if r ≤ safety_buffer then
          (false, "User rate limit nearly exhausted (" ++ toString r ++
            " remaining). Resets at " ++ (svc.user_reset user_id).getD "unknown")
        else (true, "User has " ++ toString r ++ " tweets remaining")

/-- `XService.seconds_until_can_post`: remaining anti-spam wait, 0 in mock
mode or when no tweet has been sent yet (`MIN_TWEET_INTERVAL_SECONDS = 30`). -/
def seconds_until_can_post (svc : XServiceState) : Nat :=
  if svc.is_mock then 0
  else
    match svc.last_tweet_elapsed with
    | none => 0
    | some elapsed => if 30 ≤ elapsed then 0 else 30 - elapsed

/-- `XService.can_post_now`. -/
def can_post_now (svc : XServiceState) : Bool × Nat :=
  let wait := seconds_until_can_post svc
  (wait == 0, wait)

/-- The environment a post attempt runs in: the `XService` cached state plus
oracles for the filesystem and the three external call boundaries.
`upload_result i` prescribes the outcome of `upload_media` for asset `i`
(`.error` covers an upload failure message as well as a raised-and-caught
exception, including a `decrypt_token` failure); `token_result` prescribes
`ensure_valid_token` (`.error` = raised `ValueError`/`Exception`, caught);
`post_result` prescribes `post_tweet` (`.ok` is its returned
`(success, message, tweet_id)` triple, `.error` a raised-and-caught
exception). -/
structure PostEnv where
  svc : XServiceState
  fileExists : String → Bool
  resolve : String → String
  upload_result : Nat → Except String String
  token_result : Except String String
  post_result : Except String (Bool × String × Option String)
  now : Int

/-- Accumulated outcome of the media loop of `post_draft`: the ordered list
of platform media ids collected, the collected per-media error strings, the
asset ids passed to the upload protocol (ghost), and the `x_media_id` cache
writes performed (ghost, as (asset id, new value) pairs). -/
structure MediaScan where
  media_ids : List String
  errors : List String
  uploads : List Nat
  writes : List (Nat × String)
  deriving Repr, DecidableEq

def MediaScan.empty : MediaScan := ⟨[], [], [], []⟩

/-- One iteration of the media loop of `post_draft` (scheduler.py lines
253-334) for one association row and its (possibly missing) asset.
* a missing asset reference collects an error and moves on;
* an asset with a cached `x_media_id` reuses it: no upload, no write;
* otherwise the path is resolved; if the file is missing from disk the code
  reads `media_asset.file_data`, an attribute the model does not define, so
  the iteration raises `AttributeError` (modelled as `.error`);
* with the file present: in live mode with a connected token the asset is
  passed to `upload_media` (success caches and collects the id, failure
  collects the error); in mock mode the file existence re-check succeeds (the
  same existence test just passed) and a synthetic `mock_media_<id>` is
  cached and collected; in live mode without a connected token the item is
  silently skipped. -/
def process_media_item (env : PostEnv) (x_account : Option XAccount)
    (item : DraftMediaAsset × Option MediaAsset) (acc : MediaScan) :
    Except String MediaScan :=
  match item.2 with
  | none => .ok { acc with errors := acc.errors ++ ["Missing media asset reference"] }
  | some a =>
    match a.x_media_id with
    | some mid => .ok { acc with media_ids := acc.media_ids ++ [mid] }
    | none =>
      let resolved := env.resolve a.path
      if env.fileExists resolved then
        let token_present :=
          match x_account with
          | some xa => xa.access_token_encrypted.isSome
          | none => false
        if !env.svc.is_mock && token_present then
          match env.upload_result a.id with
          | .ok mid =>
            .ok { acc with media_ids := acc.media_ids ++ [mid],
                           uploads := acc.uploads ++ [a.id],
                           writes := acc.writes ++ [(a.id, mid)] }
          | .error msg =>
            .ok { acc with uploads := acc.uploads ++ [a.id],
                           errors := acc.errors ++
                             ["Media upload failed for " ++ toString a.id ++ ": " ++ msg] }
        else if env.svc.is_mock then
          let mock_id := "mock_media_" ++ toString a.id
          .ok { acc with media_ids := acc.media_ids ++ [mock_id],
                         writes := acc.writes ++ [(a.id, mock_id)] }
        else
          .ok acc
      else
        .error "AttributeError: MediaAsset has no attribute file_data"

/-- The media loop over a list of association rows (already sorted). -/
def process_media_list (env : PostEnv) (x_account : Option XAccount) :
    List (DraftMediaAsset × Option MediaAsset) → MediaScan →
      Except String MediaScan
  | [], acc => .ok acc
  | item :: rest, acc =>
    match process_media_item env x_account item acc with
    | .error e => .error e
    | .ok acc' => process_media_list env x_account rest acc'

/-- Ordering used by `sorted(draft.draft_media_assets, key=lambda x: x.order_index)`. -/
def media_order (p q : DraftMediaAsset × Option MediaAsset) : Prop :=
  p.1.order_index ≤ q.1.order_index

instance : DecidableRel media_order := fun p q => by
  unfold media_order; infer_instance

instance : IsTotal (DraftMediaAsset × Option MediaAsset) media_order :=
  ⟨fun p q => Nat.le_total p.1.order_index q.1.order_index⟩

instance : IsTrans (DraftMediaAsset × Option MediaAsset) media_order :=
  ⟨fun _ _ _ h h' => Nat.le_trans h h'⟩

/-- The whole media-processing phase of `post_draft`: sort the association
rows by `order_index`, then run the loop. -/
def process_media (env : PostEnv) (x_account : Option XAccount)
    (items : List (DraftMediaAsset × Option MediaAsset)) :
    Except String MediaScan :=
  process_media_list env x_account
    (List.insertionSort media_order items) MediaScan.empty

/-- Result of one `post_draft` call: whether the campaign row was found, the
draft as updated, the appended log rows, the media scan, whether
`post_tweet` was invoked (ghost), the anti-spam seconds slept (ghost), and
the returned success flag. -/
structure PostResult where
  campaign_found : Bool
  draft : Draft
  logs : List PostLog
  scan : MediaScan
  publish_called : Bool
  slept : Nat
  success : Bool
  deriving Repr, DecidableEq

/-- The posting decision of `post_draft` (scheduler.py lines 342-403), after
media processing: mock mode fabricates success; a missing connected token is
an immediate failure; otherwise the anti-spam wait is slept (never a
deferral), then the app quota check, the user quota check, token refresh and
the publish call run in sequence.  Returns
(success, message, tweet_id, publish_called, slept). -/
def posting_decision (env : PostEnv) (campaign : Campaign)
    (x_account : Option XAccount) (draft : Draft) :
    Bool × String × Option String × Bool × Nat :=
  let token_present :=
    match x_account with
    | some xa => xa.access_token_encrypted.isSome
    | none => false
  if env.svc.is_mock then
    (true, "Mock post successful", some ("mock_tweet_" ++ toString draft.id), false, 0)
  else if !token_present then
    (false, "X account not connected", none, false, 0)
  else
    let wait := seconds_until_can_post env.svc
    let app := can_post_tweet env.svc 2
    if !app.1 then
      (false, "App rate limit: " ++ app.2, none, false, wait)
    else
      let user := can_user_post env.svc campaign.user_id 2
      if !user.1 then
        (false, "User rate limit: " ++ user.2, none, false, wait)
      else
        match env.token_result with
        | .error e => (false, e, none, false, wait)
        | .ok _ =>
          match env.post_result with
          | .error e => (false, e, none, true, wait)
          | .ok r => (r.1, r.2.1, r.2.2, true, wait)

/-- `post_draft` (scheduler.py lines 191-436).  `campaigns` and `x_accounts`
model the two lookup queries (both on unique keys); `items` models the draft
reloaded together with its media association rows.  A missing campaign
returns `False` at once: no media work, no status change, no log.  Otherwise
the media loop runs (it can raise, see `process_media_item`), the posting
decision is taken, the draft's status/fields are updated, and exactly one
`PostLog` row is appended. -/
def post_draft (env : PostEnv) (campaigns : List Campaign)
    (x_accounts : List XAccount) (draft : Draft)
    (items : List (DraftMediaAsset × Option MediaAsset)) :
    Except String PostResult :=
  match campaigns.find? (fun c => c.id == draft.campaign_id) with
  | none =>
    .ok { campaign_found := false, draft := draft, logs := [],
          scan := MediaScan.empty, publish_called := false, slept := 0,
          success := false }
  | some campaign =>
    let x_account := x_accounts.find? (fun xa => xa.user_id == campaign.user_id)
    match process_media env x_account items with
    | .error e => .error e
    | .ok scan =>
      let d := posting_decision env campaign x_account draft
      let success := d.1
      let message := d.2.1
      let tweet_id := d.2.2.1
      let draft' :=
        if success then
          { draft with status := "posted", x_post_id := tweet_id,
                       posted_at := some env.now }
        else
          { draft with status := "failed", last_error := some message }
      let log : PostLog :=
        { campaign_id := draft.campaign_id, draft_id := draft.id,
          action := if success then "posted" else "failed",
          message := message, tweet_id := tweet_id, mock := env.svc.is_mock,
          media_count := scan.media_ids.length,
          expected_media_count := items.length,
          media_errors := scan.errors }
      .ok { campaign_found := true, draft := draft', logs := [log],
            scan := scan, publish_called := d.2.2.2.1, slept := d.2.2.2.2,
            success := success }

/-- Minute of the local day at UTC instant `now_utc` under a fixed UTC offset
of `offset` minutes: `local_now.hour * 60 + local_now.minute` in
`get_due_schedules`. -/
def local_minute_of_day (now_utc : Int) (offset : Int) : Int :=
  ((now_utc + offset * 60).ediv 60).emod 1440

/-- The inner loop of `get_due_schedules` (scheduler.py lines 106-129): some
entry of the schedule's time list parses as `HH:MM` and its minute equals the
current local minute, or the current local minute is exactly one past it
(the 2-minute forgiveness window `current == scheduled or current ==
scheduled + 1`). -/
def schedule_has_due_time (s : Schedule) (now_utc : Int) : Bool :=
  let cur := local_minute_of_day now_utc (s.tz_offset.getD 0)
  s.times.any (fun t =>
    match parse_time t with
    | some hm =>
      let sched : Int := (hm.1 : Int) * 60 + (hm.2 : Int)
      cur == sched || cur == sched + 1
    | none => false)

/-- `get_due_schedules` (scheduler.py lines 84-131): the query keeps active
schedules whose `start_date` has passed; the loop then drops schedules whose
`end_date` is in the past and keeps those with a due time entry. -/
def get_due_schedules (now_utc : Int) (schedules : List Schedule) : List Schedule :=
  schedules.filter (fun s =>
    s.is_active && decide (s.start_date ≤ now_utc) &&
    (match s.end_date with
     | some e => !decide (e < now_utc)
     | none => true) &&
    schedule_has_due_time s now_utc)

/-- Eligibility test of the `get_due_drafts` query: `status = "pending"`,
non-null `scheduled_for`, and `scheduled_for <= now + 30` seconds. -/
def draft_is_due (now_utc : Int) (d : Draft) : Bool :=
  d.status == "pending" &&
  (match d.scheduled_for with
   | some t => decide (t ≤ now_utc + 30)
   | none => false)

/-- `ORDER BY scheduled_for` on drafts (all selected rows have a non-null
`scheduled_for`; ties are ordered arbitrarily by the database). -/
def draft_order (d₁ d₂ : Draft) : Prop :=
  d₁.scheduled_for.getD 0 ≤ d₂.scheduled_for.getD 0

instance : DecidableRel draft_order := fun d₁ d₂ => by
  unfold draft_order; infer_instance

instance : IsTotal Draft draft_order :=
  ⟨fun d₁ d₂ => Int.le_total (d₁.scheduled_for.getD 0) (d₂.scheduled_for.getD 0)⟩

instance : IsTrans Draft draft_order :=
  ⟨fun _ _ _ h h' => le_trans h h'⟩

/-- `get_due_drafts` (scheduler.py lines 493-529): select the eligible
drafts, order them by `scheduled_for` (oldest first), and keep at most
`max_drafts` (default 5) of them. -/
def get_due_drafts (now_utc : Int) (drafts : List Draft) (max_drafts : Nat := 5) :
    List Draft :=
  (List.insertionSort draft_order (drafts.filter (draft_is_due now_utc))).take max_drafts

/-- SQLAlchemy `Result.scalar_one_or_none()`: `none` on no row, the row when
unique, and a raised `MultipleResultsFound` otherwise. -/
def scalar_one_or_none : List α → Except String (Option α)
  | [] => .ok none
  | [x] => .ok (some x)
  | _ => .error "MultipleResultsFound"

/-- The worker's transactional view of the drafts table and the post_logs
table; `next_draft_id` models primary-key generation for a freshly inserted
draft. -/
structure WorkerDB where
  drafts : List Draft
  logs : List PostLog
  next_draft_id : Nat
  deriving Repr, DecidableEq

/-- The drafts of `db` matching the `(schedule_id, scheduled_for)` pair of
the materializer's existence query. -/
def draft_matches (schedule : Schedule) (scheduled_for : Int) (d : Draft) : Bool :=
  d.schedule_id == some schedule.id && d.scheduled_for == some scheduled_for

/-- `get_or_create_draft` (scheduler.py lines 134-188).  First look for an
existing draft with this exact `(schedule_id, scheduled_for)`; if found,
return it with the table untouched.  Otherwise pick a source template: the
unscheduled draft of the campaign whose `variant_index` is the schedule's
`selected_variant_index`, falling back to the first draft of the campaign
(`limit(1)`); with no source at all, return `none` and leave the table
untouched.  Otherwise insert a clone with `status = "pending"` and the target
`scheduled_for`, and return it. -/
def get_or_create_draft (db : WorkerDB) (schedule : Schedule)
    (scheduled_for : Int) : Except String (Option Draft × WorkerDB) :=
  match scalar_one_or_none
      (db.drafts.filter (draft_matches schedule scheduled_for)) with
  | .error e => .error e
  | .ok (some d) => .ok (some d, db)
  | .ok none =>
    match scalar_one_or_none (db.drafts.filter (fun d =>
        d.campaign_id == schedule.campaign_id &&
        d.variant_index == schedule.selected_variant_index &&
        d.schedule_id == none)) with
    | .error e => .error e
    | .ok preferred =>
      match (match preferred with
             | some s => some s
             | none => (db.drafts.filter
                 (fun (d : Draft) => d.campaign_id == schedule.campaign_id)).head?) with
      | none => .ok (none, db)
      | some src =>
        let draft : Draft :=
          { id := db.next_draft_id, campaign_id := schedule.campaign_id,
            schedule_id := some schedule.id, scheduled_for := some scheduled_for,
            variant_index := src.variant_index, text := src.text,
            char_count := src.char_count, hashtags_used := src.hashtags_used,
            status := "pending", x_post_id := none, posted_at := none,
            last_error := none }
        .ok (some draft,
          { db with drafts := db.drafts ++ [draft],
                    next_draft_id := db.next_draft_id + 1 })

/-- The media association rows of one draft together with their assets, as
loaded by `post_draft`'s `selectinload` query. -/
def load_draft_media (dmas : List DraftMediaAsset) (assets : List MediaAsset)
    (draft_id : Nat) : List (DraftMediaAsset × Option MediaAsset) :=
  (dmas.filter (fun m => m.draft_id == draft_id)).map
    (fun m => (m, assets.find? (fun a => a.id == m.media_asset_id)))

/-- `post_draft` acting on the worker's table view: the updated draft row
replaces the old one and the appended log rows land in `post_logs`. -/
def post_draft_db (env : PostEnv) (campaigns : List Campaign)
    (x_accounts : List XAccount) (dmas : List DraftMediaAsset)
    (assets : List MediaAsset) (db : WorkerDB) (draft : Draft) :
    Except String (WorkerDB × PostResult) :=
  match post_draft env campaigns x_accounts draft
      (load_draft_media dmas assets draft.id) with
  | .error e => .error e
  | .ok r =>
    .ok ({ db with
             drafts := db.drafts.map (fun d => if d.id == draft.id then r.draft else d),
             logs := db.logs ++ r.logs }, r)

/-- One iteration of the `for time_str in schedule.times` loop of
`process_schedule` (scheduler.py lines 450-490).  A malformed entry or an
out-of-range hour/minute (the `datetime` constructor validates them) raises
`ValueError`, caught as "skip".  The slot is processed only when its local
`HH:MM` equals the current local `HH:MM`; its UTC instant is
`scheduled_local - offset`.  A draft already `posted` or `skipped` is
skipped; with `auto_post` the draft is submitted to `post_draft`; otherwise a
`scheduled` log row is appended.  Returns the updated table and (ghost) the
drafts submitted to the Post Executor this iteration.

The per-draft dispatch (scheduler.py lines 470-486) is split into
`process_due_draft`: a draft already `posted` or `skipped` is skipped; with
`auto_post` the draft is submitted to `post_draft`; otherwise a `scheduled`
log row is appended and the draft stays pending. -/
def process_due_draft (env : PostEnv) (campaigns : List Campaign)
    (x_accounts : List XAccount) (dmas : List DraftMediaAsset)
    (assets : List MediaAsset) (schedule : Schedule) (db : WorkerDB)
    (draft : Draft) : Except String (WorkerDB × List Draft) :=
  if draft.status == "posted" || draft.status == "skipped" then
    .ok (db, [])
  else if schedule.auto_post then
    match post_draft_db env campaigns x_accounts dmas assets db draft with
    | .error e => .error e
    | .ok (db', _) => .ok (db', [draft])
  else
    .ok ({ db with logs := db.logs ++
            [{ campaign_id := schedule.campaign_id, draft_id := draft.id,
               action := "scheduled",
               message := "Draft ready for manual posting",
               tweet_id := none, mock := false, media_count := 0,
               expected_media_count := 0, media_errors := [] }] }, [])

/-- The UTC instant stored for a legacy slot: today's local wall-clock date
at `HH:MM` under the schedule's fixed offset, converted back to UTC
(`tz.localize(...)`, `astimezone(pytz.UTC)`, `replace(tzinfo=None)`). -/
def legacy_scheduled_for (schedule : Schedule) (now_utc : Int)
    (hm : Nat × Nat) : Int :=
  let offset := schedule.tz_offset.getD 0
  let local_ts := now_utc + offset * 60
  let day_start := local_ts - local_ts.emod 86400
  day_start + (hm.1 * 60 + hm.2 : Nat) * 60 - offset * 60

def process_schedule_step (env : PostEnv) (campaigns : List Campaign)
    (x_accounts : List XAccount) (dmas : List DraftMediaAsset)
    (assets : List MediaAsset) (schedule : Schedule) (now_utc : Int)
    (db : WorkerDB) (time_str : String) :
    Except String (WorkerDB × List Draft) :=
  match parse_time time_str with
  | none => .ok (db, [])
  | some hm =>
    if hm.1 ≥ 24 || hm.2 ≥ 60 then .ok (db, [])
    else if (hm.1 * 60 + hm.2 : Int) !=
        local_minute_of_day now_utc (schedule.tz_offset.getD 0) then
      .ok (db, [])
    else
      match get_or_create_draft db schedule
          (legacy_scheduled_for schedule now_utc hm) with
      | .error e => .error e
      | .ok (none, db') => .ok (db', [])
      | .ok (some draft, db') =>
        process_due_draft env campaigns x_accounts dmas assets schedule db' draft

/-- The `for time_str in schedule.times` loop, threading the table state and
collecting (ghost) every draft submitted to the Post Executor. -/
def process_schedule_times (env : PostEnv) (campaigns : List Campaign)
    (x_accounts : List XAccount) (dmas : List DraftMediaAsset)
    (assets : List MediaAsset) (schedule : Schedule) (now_utc : Int) :
    List String → WorkerDB → Except String (WorkerDB × List Draft)
  | [], db => .ok (db, [])
  | t :: ts, db =>
    match process_schedule_step env campaigns x_accounts dmas assets schedule
        now_utc db t with
    | .error e => .error e
    | .ok (db', subs) =>
      match process_schedule_times env campaigns x_accounts dmas assets schedule
          now_utc ts db' with
      | .error e => .error e
      | .ok (db'', subs') => .ok (db'', subs ++ subs')

/-- `process_schedule` (scheduler.py lines 439-490) over the worker's table
view. -/
def process_schedule (env : PostEnv) (campaigns : List Campaign)
    (x_accounts : List XAccount) (dmas : List DraftMediaAsset)
    (assets : List MediaAsset) (schedule : Schedule) (now_utc : Int)
    (db : WorkerDB) : Except String (WorkerDB × List Draft) :=
  process_schedule_times env campaigns x_accounts dmas assets schedule now_utc
    schedule.times db

/-- The three error classes distinguished by `run_scheduler_cycle`'s handlers
(scheduler.py lines 603-615): `SQLAlchemyError`, `httpx.HTTPError`, and any
other `Exception`. -/
inductive CycleError
  | db_error
  | http_error
  | other_error
  deriving Repr, DecidableEq

/-- The worker-process state `run_scheduler_cycle` touches: the durable
(committed) database contents and the process-global consecutive-failure
counter. -/
structure CycleState (α : Type) where
  durable : α
  consecutive_failures : Nat

/-- What one cycle did: the resulting state, whether an explicit
`db.rollback()` was issued (ghost), and whether an exception escaped to the
outer loop. -/
structure CycleReport (α : Type) where
  state : CycleState α
  explicit_rollback : Bool
  reraised : Bool

/-- `run_scheduler_cycle` (scheduler.py lines 532-615) at the level of its
transaction/except structure.  `body` is the outcome of the cycle's work
inside the session: on success, the function from old to new database
contents that `db.commit()` makes durable; on an error, the error's class.
On success the unit of work commits and the failure counter resets.  The
`SQLAlchemyError` and generic `Exception` handlers roll back explicitly; the
`httpx.HTTPError` handler does not, but leaving the `async with
async_session_maker()` block closes the session and discards the uncommitted
unit of work, so durable contents are unchanged on every error path.  Every
handler swallows its exception. -/
def run_scheduler_cycle (body : Except CycleError (α → α))
    (st : CycleState α) : CycleReport α :=
  match body with
  | .ok commit_fn =>
    { state := { durable := commit_fn st.durable, consecutive_failures := 0 },
      explicit_rollback := false, reraised := false }
  | .error .db_error =>
    { state := { st with consecutive_failures := st.consecutive_failures + 1 },
      explicit_rollback := true, reraised := false }
  | .error .http_error =>
    { state := { st with consecutive_failures := st.consecutive_failures + 1 },
      explicit_rollback := false, reraised := false }
  | .error .other_error =>
    { state := { st with consecutive_failures := st.consecutive_failures + 1 },
      explicit_rollback := true, reraised := false }

/-! Concrete instances used by witnesses and counterexamples. -/

/-- A live-mode service state whose cached app-level remaining quota is the
string "1". -/
def sample_svc_live : XServiceState :=
  { is_mock := false, app_remaining := some "1", app_reset := some "1699999999",
    user_remaining := fun _ => none, user_reset := fun _ => none,
    last_tweet_elapsed := none }

/-- A mock-mode service state. -/
def sample_svc_mock : XServiceState :=
  { is_mock := true, app_remaining := none, app_reset := none,
    user_remaining := fun _ => none, user_reset := fun _ => none,
    last_tweet_elapsed := none }

/-- Live environment: the external-call oracles are never consulted in the
scenarios that use it (the quota gate denies first). -/
def sample_env_live : PostEnv :=
  { svc := sample_svc_live, fileExists := fun _ => false, resolve := id,
    upload_result := fun _ => .error "unreachable",
    token_result := .error "unreachable",
    post_result := .error "unreachable", now := 1000 }

/-- Mock environment with a filesystem on which every path exists. -/
def sample_env_mock : PostEnv :=
  { svc := sample_svc_mock, fileExists := fun _ => true, resolve := id,
    upload_result := fun _ => .error "unreachable",
    token_result := .error "unreachable",
    post_result := .error "unreachable", now := 0 }

def sample_campaign : Campaign := { id := 1, user_id := 1 }

def sample_account : XAccount := { user_id := 1, access_token_encrypted := some "enc" }

def sample_pending_draft : Draft :=
  { id := 7, campaign_id := 1, schedule_id := some 1, scheduled_for := some 0,
    variant_index := 0, text := "hello", char_count := 5, hashtags_used := [],
    status := "pending", x_post_id := none, posted_at := none, last_error := none }

def sample_failed_draft : Draft :=
  { sample_pending_draft with status := "failed" }

/-- An active daily schedule at UTC offset 0 with the single slot 00:00 and
`auto_post` on. -/
def sample_schedule : Schedule :=
  { id := 1, campaign_id := 1, tz_offset := some 0, times := ["00:00"],
    recurrence := "daily", start_date := 0, end_date := none, is_active := true,
    auto_post := true, daily_limit := 10, selected_variant_index := 0,
    post_interval_min := 120, post_interval_max := 300 }

/-- The schedule of the spec's legacy-path scenario: `Europe/Istanbul`
(UTC+03:00), times `["09:00"]`, recurrence daily. -/
def istanbul_schedule : Schedule :=
  { id := 2, campaign_id := 1, tz_offset := some 180, times := ["09:00"],
    recurrence := "daily", start_date := 0, end_date := none, is_active := true,
    auto_post := true, daily_limit := 10, selected_variant_index := 0,
    post_interval_min := 120, post_interval_max := 300 }

/-- A media asset whose platform reference is already cached. -/
def sample_asset_cached : MediaAsset :=
  { id := 11, path := "media/a.jpg", type := "image", alt_text := none,
    x_media_id := some "m1" }

/-- A media asset not yet uploaded. -/
def sample_asset_uncached : MediaAsset :=
  { id := 12, path := "media/b.jpg", type := "image", alt_text := none,
    x_media_id := none }

def sample_dma : DraftMediaAsset :=
  { id := 21, draft_id := 7, media_asset_id := 11, order_index := 0 }

/-- The result of a live post attempt on `sample_pending_draft` with the app
quota cached at "1": denied by the app quota gate. -/
def live_quota_result : PostResult :=
  { campaign_found := true,
    draft := { sample_pending_draft with
      status := "failed",
      last_error := some
        "App rate limit: Rate limit nearly exhausted (1 remaining). Resets at 1699999999" },
    logs := [{ campaign_id := 1, draft_id := 7, action := "failed",
               message := "App rate limit: Rate limit nearly exhausted (1 remaining). Resets at 1699999999",
               tweet_id := none, mock := false, media_count := 0,
               expected_media_count := 0, media_errors := [] }],
    scan := MediaScan.empty, publish_called := false, slept := 0,
    success := false }

/-- The result of a mock post attempt on `sample_pending_draft`. -/
def mock_post_result : PostResult :=
  { campaign_found := true,
    draft := { sample_pending_draft with
      status := "posted", x_post_id := some "mock_tweet_7", posted_at := some 0 },
    logs := [{ campaign_id := 1, draft_id := 7, action := "posted",
               message := "Mock post successful",
               tweet_id := some "mock_tweet_7", mock := true, media_count := 0,
               expected_media_count := 0, media_errors := [] }],
    scan := MediaScan.empty, publish_called := false, slept := 0,
    success := true }

/-- A pending draft due 10 seconds after scan instant 0. -/
def c5_draft10 : Draft := { sample_pending_draft with id := 31, scheduled_for := some 10 }

/-- A pending draft due 120 seconds after scan instant 0. -/
def c5_draft120 : Draft := { sample_pending_draft with id := 32, scheduled_for := some 120 }

/-- The table state after the legacy path posts `sample_pending_draft` in
mock mode at scan instant 0. -/
def c2_witness_db : WorkerDB :=
  { drafts := [{ sample_pending_draft with
                 status := "posted", x_post_id := some "mock_tweet_7",
                 posted_at := some 0 }],
    logs := [{ campaign_id := 1, draft_id := 7, action := "posted",
               message := "Mock post successful", tweet_id := some "mock_tweet_7",
               mock := true, media_count := 0, expected_media_count := 0,
               media_errors := [] }],
    next_draft_id := 100 }

/-! Helper lemmas. -/

theorem draft_is_due_iff (now_utc : Int) (d : Draft) :
    draft_is_due now_utc d = true ↔
      d.status = "pending" ∧ ∃ t, d.scheduled_for = some t ∧ t ≤ now_utc + 30 := by
  unfold draft_is_due
  rcases hs : d.scheduled_for with _ | t <;> simp [hs]

theorem get_due_drafts_mem_due (now_utc : Int) (drafts : List Draft) (d : Draft)
    (hd : d ∈ get_due_drafts now_utc drafts) : draft_is_due now_utc d = true := by
  have h1 := List.mem_of_mem_take hd
  have h2 := (List.mem_insertionSort draft_order).mp h1
  exact (List.mem_filter.mp h2).2

/-- Claim C5: for every scan instant, `get_due_drafts` returns exactly the
pending drafts with a non-null `scheduled_for` at most 30 seconds in the
future, ordered by `scheduled_for` ascending and truncated to at most 5 per
cycle; a pending draft due in 10 seconds is included (when the eligible set
fits the cap) and one due in 120 seconds is excluded. -/
theorem C5_get_due_drafts_exact (now_utc : Int) (drafts : List Draft) :
    (∀ d ∈ get_due_drafts now_utc drafts,
        d.status = "pending" ∧ ∃ t, d.scheduled_for = some t ∧ t ≤ now_utc + 30) ∧
    List.Sorted draft_order (get_due_drafts now_utc drafts) ∧
    (get_due_drafts now_utc drafts).length =
      min 5 (drafts.countP (draft_is_due now_utc)) ∧
    (drafts.countP (draft_is_due now_utc) ≤ 5 →
      ∀ d ∈ drafts, draft_is_due now_utc d = true →
        d ∈ get_due_drafts now_utc drafts) ∧
    (drafts.countP (draft_is_due now_utc) ≤ 5 →
      ∀ d ∈ drafts, d.status = "pending" → d.scheduled_for = some (now_utc + 10) →
        d ∈ get_due_drafts now_utc drafts) ∧
    (∀ d, d.scheduled_for = some (now_utc + 120) →
      d ∉ get_due_drafts now_utc drafts) := by
  have hlen : (List.insertionSort draft_order
      (drafts.filter (draft_is_due now_utc))).length =
      drafts.countP (draft_is_due now_utc) := by
    rw [List.length_insertionSort, ← List.countP_eq_length_filter]
  have hcomplete : drafts.countP (draft_is_due now_utc) ≤ 5 →
      ∀ d ∈ drafts, draft_is_due now_utc d = true →
        d ∈ get_due_drafts now_utc drafts := by
    intro h5 d hd hdue
    unfold get_due_drafts
    rw [List.take_of_length_le (by rw [hlen]; exact h5)]
    exact (List.mem_insertionSort draft_order).mpr (List.mem_filter.mpr ⟨hd, hdue⟩)
  refine ⟨?_, ?_, ?_, hcomplete, ?_, ?_⟩
  · intro d hd
    exact (draft_is_due_iff now_utc d).mp (get_due_drafts_mem_due now_utc drafts d hd)
  · exact (List.sorted_insertionSort draft_order _).sublist (List.take_sublist _ _)
  · rw [get_due_drafts, List.length_take, hlen]
  · intro h5 d hd hp hs
    exact hcomplete h5 d hd ((draft_is_due_iff now_utc d).mpr
      ⟨hp, now_utc + 10, hs, by omega⟩)
  · intro d hs hd
    obtain ⟨-, t, ht, hle⟩ :=
      (draft_is_due_iff now_utc d).mp (get_due_drafts_mem_due now_utc drafts d hd)
    rw [hs] at ht
    cases ht
    omega

/-- Witness for C5 at a concrete scan instant and table: the draft due in 10
seconds is returned, the draft due in 120 seconds is not. -/
theorem C5_witness :
    c5_draft10 ∈ get_due_drafts 0 [c5_draft10, c5_draft120] ∧
    c5_draft120 ∉ get_due_drafts 0 [c5_draft10, c5_draft120] := by
  have h := C5_get_due_drafts_exact 0 [c5_draft10, c5_draft120]
  exact ⟨h.2.2.2.2.1 (by decide) c5_draft10 (by decide) rfl (by decide),
         h.2.2.2.2.2 c5_draft120 (by decide)⟩

theorem schedule_has_due_time_iff (s : Schedule) (now_utc : Int) :
    schedule_has_due_time s now_utc = true ↔
      ∃ t ∈ s.times, ∃ hm : Nat × Nat, parse_time t = some hm ∧
        (local_minute_of_day now_utc (s.tz_offset.getD 0) = (hm.1 : Int) * 60 + hm.2 ∨
         local_minute_of_day now_utc (s.tz_offset.getD 0) = (hm.1 : Int) * 60 + hm.2 + 1) := by
  unfold schedule_has_due_time
  rw [List.any_eq_true]
  constructor
  · rintro ⟨t, ht, hmatch⟩
    rcases hp : parse_time t with _ | hm
    · rw [hp] at hmatch; simp at hmatch
    · rw [hp] at hmatch
      simp only [Bool.or_eq_true, beq_iff_eq] at hmatch
      exact ⟨t, ht, hm, hp, hmatch⟩
  · rintro ⟨t, ht, hm, hp, hmatch⟩
    refine ⟨t, ht, ?_⟩
    rw [hp]
    simp only [Bool.or_eq_true, beq_iff_eq]
    exact hmatch

/-- Claim C6: for every active, started, not-yet-ended schedule, the legacy
scanner converts the scan instant to the schedule's local timezone and
reports the schedule due exactly when some listed `HH:MM` entry matches the
current local minute or the immediately preceding one; the Istanbul
schedule (`times = ["09:00"]`, UTC+03:00) is due when scanned at local time
09:00:30 (UTC instant 21630) and not due at 09:02:30 (UTC instant 21750). -/
theorem C6_get_due_schedules_window (schedules : List Schedule) (s : Schedule)
    (now_utc : Int) (hmem : s ∈ schedules) (hact : s.is_active = true)
    (hstart : s.start_date ≤ now_utc)
    (hend : ∀ e, s.end_date = some e → ¬ e < now_utc) :
    (s ∈ get_due_schedules now_utc schedules ↔
      ∃ t ∈ s.times, ∃ hm : Nat × Nat, parse_time t = some hm ∧
        (local_minute_of_day now_utc (s.tz_offset.getD 0) = (hm.1 : Int) * 60 + hm.2 ∨
         local_minute_of_day now_utc (s.tz_offset.getD 0) = (hm.1 : Int) * 60 + hm.2 + 1)) ∧
    istanbul_schedule ∈ get_due_schedules 21630 [istanbul_schedule] ∧
    istanbul_schedule ∉ get_due_schedules 21750 [istanbul_schedule] := by
  refine ⟨?_, by decide, by decide⟩
  rw [← schedule_has_due_time_iff]
  unfold get_due_schedules
  rw [List.mem_filter]
  have hendb : (match s.end_date with
      | some e => !decide (e < now_utc)
      | none => true) = true := by
    rcases he : s.end_date with _ | e
    · rfl
    · simpa using hend e he
  constructor
  · intro h
    exact (Bool.and_eq_true _ _).mp h.2 |>.2
  · intro h
    refine ⟨hmem, ?_⟩
    simp only [Bool.and_eq_true]
    exact ⟨⟨⟨hact, by simpa using hstart⟩, hendb⟩, h⟩

/-- Witness for C6: the Istanbul schedule scanned at local 09:00:30 is due
(via the characterization) and at 09:02:30 is not. -/
theorem C6_witness :
    istanbul_schedule ∈ get_due_schedules 21630 [istanbul_schedule] ∧
    istanbul_schedule ∉ get_due_schedules 21750 [istanbul_schedule] := by
  have h := C6_get_due_schedules_window [istanbul_schedule] istanbul_schedule
    21630 (by decide) rfl (by decide) (by intro e he; simp [istanbul_schedule] at he)
  exact ⟨h.1.mpr ⟨"09:00", by decide, (9, 0), by decide, Or.inl (by decide)⟩, h.2.2⟩

theorem posting_decision_app_denied (env : PostEnv) (c : Campaign) (xa : XAccount)
    (draft : Draft) (hmock : env.svc.is_mock = false)
    (htok : xa.access_token_encrypted.isSome = true)
    (happ : (can_post_tweet env.svc 2).1 = false) :
    posting_decision env c (some xa) draft =
      (false, "App rate limit: " ++ (can_post_tweet env.svc 2).2, none, false,
        seconds_until_can_post env.svc) := by
  simp [posting_decision, hmock, htok, happ]

theorem posting_decision_user_denied (env : PostEnv) (c : Campaign) (xa : XAccount)
    (draft : Draft) (hmock : env.svc.is_mock = false)
    (htok : xa.access_token_encrypted.isSome = true)
    (happ : (can_post_tweet env.svc 2).1 = true)
    (huser : (can_user_post env.svc c.user_id 2).1 = false) :
    posting_decision env c (some xa) draft =
      (false, "User rate limit: " ++ (can_user_post env.svc c.user_id 2).2, none,
        false, seconds_until_can_post env.svc) := by
  simp [posting_decision, hmock, htok, happ, huser]

theorem posting_decision_proceeds (env : PostEnv) (c : Campaign) (xa : XAccount)
    (draft : Draft) (hmock : env.svc.is_mock = false)
    (htok : xa.access_token_encrypted.isSome = true)
    (happ : (can_post_tweet env.svc 2).1 = true)
    (huser : (can_user_post env.svc c.user_id 2).1 = true)
    (htoken : env.token_result.isOk = true) :
    (posting_decision env c (some xa) draft).2.2.2.1 = true ∧
    (posting_decision env c (some xa) draft).2.2.2.2 = seconds_until_can_post env.svc := by
  rcases ht : env.token_result with e | tok
  · rw [ht] at htoken; simp [Except.isOk, Except.toBool] at htoken
  · rcases hp : env.post_result with e | res <;>
      simp [posting_decision, hmock, htok, happ, huser, ht, hp]

theorem posting_decision_slept (env : PostEnv) (c : Campaign) (xa : XAccount)
    (draft : Draft) (hmock : env.svc.is_mock = false)
    (htok : xa.access_token_encrypted.isSome = true) :
    (posting_decision env c (some xa) draft).2.2.2.2 =
      seconds_until_can_post env.svc := by
  cases happ : (can_post_tweet env.svc 2).1 with
  | false => rw [posting_decision_app_denied env c xa draft hmock htok happ]
  | true =>
    cases huser : (can_user_post env.svc c.user_id 2).1 with
    | false => rw [posting_decision_user_denied env c xa draft hmock htok happ huser]
    | true =>
      rcases ht : env.token_result with e | tok
      · simp [posting_decision, hmock, htok, happ, huser, ht]
      · rcases hp : env.post_result with e | res <;>
          simp [posting_decision, hmock, htok, happ, huser, ht, hp]

/-- Claim C4: in live mode with the cached app-level remaining quota at "1"
and safety buffer 2, `can_post_tweet` returns false with the rate-limit
reason string, and `post_draft` (when its media phase completes) marks the
draft failed without ever invoking `post_tweet`. -/
theorem C4_app_quota_gate (env : PostEnv) (campaigns : List Campaign)
    (x_accounts : List XAccount) (draft : Draft)
    (items : List (DraftMediaAsset × Option MediaAsset)) (c : Campaign)
    (xa : XAccount) (r : PostResult)
    (hmock : env.svc.is_mock = false)
    (hrem : env.svc.app_remaining = some "1")
    (hc : campaigns.find? (fun x => x.id == draft.campaign_id) = some c)
    (hxa : x_accounts.find? (fun a => a.user_id == c.user_id) = some xa)
    (htok : xa.access_token_encrypted.isSome = true)
    (hpost : post_draft env campaigns x_accounts draft items = .ok r) :
    can_post_tweet env.svc 2 =
      (false, "Rate limit nearly exhausted (1 remaining). Resets at " ++
        env.svc.app_reset.getD "unknown") ∧
    r.draft.status = "failed" ∧ r.success = false ∧ r.publish_called = false ∧
    r.draft.last_error =
      some ("App rate limit: " ++ (can_post_tweet env.svc 2).2) := by
  have hcan : can_post_tweet env.svc 2 =
      (false, "Rate limit nearly exhausted (1 remaining). Resets at " ++
        env.svc.app_reset.getD "unknown") := by
    unfold can_post_tweet
    rw [hmock, hrem]
    rfl
  refine ⟨hcan, ?_⟩
  unfold post_draft at hpost
  simp only [hc, hxa] at hpost
  rcases hpm : process_media env (some xa) items with e | scan
  · rw [hpm] at hpost; exact absurd hpost (by simp)
  · rw [hpm] at hpost
    simp only [posting_decision_app_denied env c xa draft hmock htok (by rw [hcan]),
      Bool.false_eq_true, if_false, reduceIte] at hpost
    replace hpost := Except.ok.inj hpost
    subst hpost
    exact ⟨rfl, rfl, rfl, by rw [hcan]⟩

/-- Witness for C4: the concrete live environment with app quota cached at
"1" denies the attempt; the resulting draft is failed and no publish call
was made. -/
theorem C4_witness :
    live_quota_result.draft.status = "failed" ∧
    live_quota_result.publish_called = false ∧
    (can_post_tweet sample_svc_live 2).1 = false ∧
    (can_post_tweet sample_svc_live 2).2 =
      "Rate limit nearly exhausted (1 remaining). Resets at 1699999999" := by
  have h := C4_app_quota_gate sample_env_live [sample_campaign] [sample_account]
    sample_pending_draft [] sample_campaign sample_account live_quota_result
    rfl rfl rfl rfl rfl rfl
  exact ⟨h.2.1, h.2.2.2.1, congrArg Prod.fst h.1, congrArg Prod.snd h.1⟩

/-- Counterexample for C3: a live-mode attempt denied by the app quota check
does not leave the draft pending — `post_draft` marks it "failed" (and sets
`last_error`), so the "not yet" deferral the claim describes does not
happen. -/
theorem C3_counterexample :
    (post_draft sample_env_live [sample_campaign] [sample_account]
        sample_pending_draft []).map (fun r => r.draft.status) = .ok "failed" ∧
    "failed" ≠ "pending" := ⟨rfl, by decide⟩

/-- Claim C3 (amended): in live mode with a connected token, an attempt
denied by the app or user quota check is marked failed (with the quota
reason in `last_error`) rather than deferred as pending; and the pacing
check never defers to a later cycle: the remaining anti-spam wait is slept
inside the same call and, when the quota checks pass and a token is
obtained, `post_tweet` is invoked regardless of that wait. -/
theorem C3_quota_and_pacing (env : PostEnv) (campaigns : List Campaign)
    (x_accounts : List XAccount) (draft : Draft)
    (items : List (DraftMediaAsset × Option MediaAsset)) (c : Campaign)
    (xa : XAccount) (r : PostResult)
    (hmock : env.svc.is_mock = false)
    (hc : campaigns.find? (fun x => x.id == draft.campaign_id) = some c)
    (hxa : x_accounts.find? (fun a => a.user_id == c.user_id) = some xa)
    (htok : xa.access_token_encrypted.isSome = true)
    (hpost : post_draft env campaigns x_accounts draft items = .ok r) :
    ((can_post_tweet env.svc 2).1 = false →
      r.draft.status = "failed" ∧ r.publish_called = false ∧
      r.draft.last_error = some ("App rate limit: " ++ (can_post_tweet env.svc 2).2)) ∧
    ((can_post_tweet env.svc 2).1 = true →
     (can_user_post env.svc c.user_id 2).1 = false →
      r.draft.status = "failed" ∧ r.publish_called = false ∧
      r.draft.last_error = some ("User rate limit: " ++ (can_user_post env.svc c.user_id 2).2)) ∧
    r.slept = seconds_until_can_post env.svc ∧
    ((can_post_tweet env.svc 2).1 = true →
     (can_user_post env.svc c.user_id 2).1 = true →
     env.token_result.isOk = true → r.publish_called = true) := by
  unfold post_draft at hpost
  simp only [hc, hxa] at hpost
  rcases hpm : process_media env (some xa) items with e | scan
  · rw [hpm] at hpost; exact absurd hpost (by simp)
  · rw [hpm] at hpost
    refine ⟨?_, ?_, ?_, ?_⟩
    · intro happ
      simp only [posting_decision_app_denied env c xa draft hmock htok happ,
        Bool.false_eq_true, if_false, reduceIte] at hpost
      replace hpost := Except.ok.inj hpost
      subst hpost
      exact ⟨rfl, rfl, rfl⟩
    · intro happ huser
      simp only [posting_decision_user_denied env c xa draft hmock htok happ huser,
        Bool.false_eq_true, if_false, reduceIte] at hpost
      replace hpost := Except.ok.inj hpost
      subst hpost
      exact ⟨rfl, rfl, rfl⟩
    · replace hpost := Except.ok.inj hpost
      subst hpost
      exact posting_decision_slept env c xa draft hmock htok
    · intro happ huser htoken
      rcases ht : env.token_result with e | tok
      · rw [ht] at htoken; simp [Except.isOk, Except.toBool] at htoken
      · replace hpost := Except.ok.inj hpost
        subst hpost
        show (posting_decision env c (some xa) draft).2.2.2.1 = true
        rcases hp : env.post_result with e | res <;>
          simp [posting_decision, hmock, htok, happ, huser, ht, hp]

/-- Witness for C3 (amended): the concrete live quota-denied attempt is
failed, sleeps no pacing wait, and makes no publish call. -/
theorem C3_witness :
    live_quota_result.draft.status = "failed" ∧
    live_quota_result.publish_called = false ∧
    live_quota_result.slept = seconds_until_can_post sample_svc_live := by
  have h := C3_quota_and_pacing sample_env_live [sample_campaign] [sample_account]
    sample_pending_draft [] sample_campaign sample_account live_quota_result
    rfl rfl rfl rfl rfl
  obtain ⟨hd, -, hs, -⟩ := h
  obtain ⟨h1, h2, -⟩ := hd (by decide)
  exact ⟨h1, h2, hs⟩

/-- Counterexample for C7: when no campaign row matches the draft's
`campaign_id`, `post_draft` returns `False` at once — no PostLog entry is
appended and the draft is returned unchanged (status still "pending"), so
the attempt ends with neither a status change nor a log entry. -/
theorem C7_counterexample :
    (post_draft sample_env_mock [] [] sample_pending_draft []).map
      (fun r => (r.logs, r.draft)) = .ok ([], sample_pending_draft) ∧
    sample_pending_draft.status = "pending" := ⟨rfl, rfl⟩

/-- Claim C7 (amended): whenever the draft's campaign row exists and the
call completes (the media loop raises when a non-cached asset's file is
missing, since the `file_data` fallback attribute does not exist),
`post_draft` appends exactly one PostLog entry recording the outcome action,
the external id, the mock flag, the attempted and succeeded media counts and
the media error list, and sets the draft's status to posted or failed. -/
theorem C7_log_write (env : PostEnv) (campaigns : List Campaign)
    (x_accounts : List XAccount) (draft : Draft)
    (items : List (DraftMediaAsset × Option MediaAsset)) (c : Campaign)
    (r : PostResult)
    (hc : campaigns.find? (fun x => x.id == draft.campaign_id) = some c)
    (hpost : post_draft env campaigns x_accounts draft items = .ok r) :
    ∃ l, r.logs = [l] ∧
      l.action = (if r.success then "posted" else "failed") ∧
      l.draft_id = draft.id ∧ l.campaign_id = draft.campaign_id ∧
      l.mock = env.svc.is_mock ∧
      l.media_count = r.scan.media_ids.length ∧
      l.expected_media_count = items.length ∧
      l.media_errors = r.scan.errors ∧
      r.draft.status = (if r.success then "posted" else "failed") ∧
      (r.success = true →
        r.draft.x_post_id = l.tweet_id ∧ r.draft.posted_at = some env.now) := by
  unfold post_draft at hpost
  simp only [hc] at hpost
  rcases hpm : process_media env
      (x_accounts.find? (fun xa => xa.user_id == c.user_id)) items with e | scan
  · rw [hpm] at hpost; exact absurd hpost (by simp)
  · rw [hpm] at hpost
    replace hpost := Except.ok.inj hpost
    subst hpost
    refine ⟨_, rfl, rfl, rfl, rfl, rfl, rfl, rfl, rfl, ?_, ?_⟩
    · cases hsucc : (posting_decision env c
          (x_accounts.find? (fun xa => xa.user_id == c.user_id)) draft).1 <;>
        simp [hsucc]
    · intro hsucc
      simp only [PostResult.success] at hsucc
      simp [hsucc]

/-- Witness for C7 (amended): the concrete mock post appends exactly one log
entry and marks the draft posted. -/
theorem C7_witness :
    mock_post_result.logs.length = 1 ∧
    mock_post_result.draft.status = "posted" := by
  have h := C7_log_write sample_env_mock [sample_campaign] [] sample_pending_draft
    [] sample_campaign mock_post_result rfl rfl
  obtain ⟨l, hl, -, -, -, -, -, -, -, hstatus, -⟩ := h
  refine ⟨by rw [hl]; rfl, ?_⟩
  rw [hstatus]
  rfl


theorem get_or_create_draft_found (db : WorkerDB) (schedule : Schedule)
    (scheduled_for : Int) (d : Draft)
    (h : db.drafts.filter (draft_matches schedule scheduled_for) = [d]) :
    get_or_create_draft db schedule scheduled_for = .ok (some d, db) := by
  unfold get_or_create_draft
  rw [h]
  rfl

/-- Claim C1: the Draft Materializer is idempotent.  If a draft with the
exact `(schedule_id, scheduled_for)` pair already exists (uniquely), the
call returns it with the table unchanged and creates no row; and whenever a
call on a table holding at most one match returns a draft, the resulting
table holds exactly one match — the returned draft — and a second call
returns the same draft identity and leaves the table unchanged. -/
theorem C1_materializer_idempotent (db : WorkerDB) (schedule : Schedule)
    (scheduled_for : Int) :
    (∀ d, db.drafts.filter (draft_matches schedule scheduled_for) = [d] →
      get_or_create_draft db schedule scheduled_for = .ok (some d, db)) ∧
    ((db.drafts.filter (draft_matches schedule scheduled_for)).length ≤ 1 →
      ∀ d db', get_or_create_draft db schedule scheduled_for = .ok (some d, db') →
        draft_matches schedule scheduled_for d = true ∧
        db'.drafts.filter (draft_matches schedule scheduled_for) = [d] ∧
        get_or_create_draft db' schedule scheduled_for = .ok (some d, db')) := by
  refine ⟨get_or_create_draft_found db schedule scheduled_for, ?_⟩
  intro hlen d db' h
  rcases hfil : db.drafts.filter (draft_matches schedule scheduled_for) with
    _ | ⟨x, _ | ⟨y, rest⟩⟩
  · -- no existing match: the call inserts a fresh matching draft
    unfold get_or_create_draft at h
    rw [hfil] at h
    simp only [scalar_one_or_none] at h
    split at h
    · exact absurd h (by simp)
    · split at h
      · exact absurd h (by simp)
      · simp only [Except.ok.injEq, Prod.mk.injEq, Option.some.injEq] at h
        obtain ⟨h1, h2⟩ := h
        subst h1
        subst h2
        refine ⟨by simp [draft_matches], ?_, ?_⟩
        · dsimp only
          rw [List.filter_append, hfil]
          simp [draft_matches]
        · apply get_or_create_draft_found
          dsimp only
          rw [List.filter_append, hfil]
          simp [draft_matches]
  · -- exactly one existing match: the call returns it unchanged
    have hfound := get_or_create_draft_found db schedule scheduled_for x hfil
    rw [hfound, Except.ok.injEq, Prod.mk.injEq] at h
    obtain ⟨h1, h2⟩ := h
    replace h1 := Option.some.inj h1
    subst h1
    subst h2
    have hx : draft_matches schedule scheduled_for x = true := by
      have hm : x ∈ db.drafts.filter (draft_matches schedule scheduled_for) := by
        rw [hfil]; exact List.mem_singleton_self x
      exact (List.mem_filter.mp hm).2
    exact ⟨hx, hfil, hfound⟩
  · rw [hfil] at hlen
    simp at hlen

/-- Witness for C1: on a table holding exactly the failed draft for the
pair, the call returns that draft and leaves the table unchanged. -/
theorem C1_witness :
    get_or_create_draft ⟨[sample_failed_draft], [], 100⟩ sample_schedule 0 =
      .ok (some sample_failed_draft, ⟨[sample_failed_draft], [], 100⟩) := by
  have h := C1_materializer_idempotent ⟨[sample_failed_draft], [], 100⟩
    sample_schedule 0
  exact h.1 sample_failed_draft (by decide)

theorem process_due_draft_subs (env : PostEnv) (campaigns : List Campaign)
    (x_accounts : List XAccount) (dmas : List DraftMediaAsset)
    (assets : List MediaAsset) (schedule : Schedule) (db : WorkerDB)
    (draft : Draft) (db' : WorkerDB) (subs : List Draft)
    (h : process_due_draft env campaigns x_accounts dmas assets schedule db
        draft = .ok (db', subs)) :
    ∀ d ∈ subs, d.status ≠ "posted" ∧ d.status ≠ "skipped" := by
  unfold process_due_draft at h
  split at h
  · simp only [Except.ok.injEq, Prod.mk.injEq] at h
    obtain ⟨-, h2⟩ := h
    subst h2
    simp
  · rename_i hguard
    split at h
    · split at h
      · exact absurd h (by simp)
      · simp only [Except.ok.injEq, Prod.mk.injEq] at h
        obtain ⟨-, h2⟩ := h
        subst h2
        intro dd hdd
        rw [List.mem_singleton] at hdd
        subst hdd
        simp only [Bool.or_eq_true, beq_iff_eq] at hguard
        push_neg at hguard
        exact hguard
    · simp only [Except.ok.injEq, Prod.mk.injEq] at h
      obtain ⟨-, h2⟩ := h
      subst h2
      simp

theorem process_schedule_step_subs (env : PostEnv) (campaigns : List Campaign)
    (x_accounts : List XAccount) (dmas : List DraftMediaAsset)
    (assets : List MediaAsset) (schedule : Schedule) (now_utc : Int)
    (db : WorkerDB) (t : String) (db' : WorkerDB) (subs : List Draft)
    (h : process_schedule_step env campaigns x_accounts dmas assets schedule
        now_utc db t = .ok (db', subs)) :
    ∀ d ∈ subs, d.status ≠ "posted" ∧ d.status ≠ "skipped" := by
  have hnil : ∀ (dbx : WorkerDB),
      (Except.ok (dbx, ([] : List Draft)) : Except String (WorkerDB × List Draft)) =
        .ok (db', subs) →
      ∀ d ∈ subs, d.status ≠ "posted" ∧ d.status ≠ "skipped" := by
    intro dbx hh
    simp only [Except.ok.injEq, Prod.mk.injEq] at hh
    obtain ⟨-, h2⟩ := hh
    subst h2
    simp
  unfold process_schedule_step at h
  repeat' split at h
  all_goals first
    | exact hnil _ h
    | exact absurd h (by simp)
    | exact process_due_draft_subs _ _ _ _ _ _ _ _ _ _ h

theorem process_schedule_times_subs (env : PostEnv) (campaigns : List Campaign)
    (x_accounts : List XAccount) (dmas : List DraftMediaAsset)
    (assets : List MediaAsset) (schedule : Schedule) (now_utc : Int) :
    ∀ (ts : List String) (db db' : WorkerDB) (subs : List Draft),
      process_schedule_times env campaigns x_accounts dmas assets schedule
        now_utc ts db = .ok (db', subs) →
      ∀ d ∈ subs, d.status ≠ "posted" ∧ d.status ≠ "skipped" := by
  intro ts
  induction ts with
  | nil =>
    intro db db' subs h
    simp only [process_schedule_times, Except.ok.injEq, Prod.mk.injEq] at h
    obtain ⟨-, h2⟩ := h
    subst h2
    simp
  | cons t ts ih =>
    intro db db' subs h
    unfold process_schedule_times at h
    split at h
    · exact absurd h (by simp)
    · rename_i db1 subs1 hstep
      split at h
      · exact absurd h (by simp)
      · rename_i db2 subs2 htimes
        simp only [Except.ok.injEq, Prod.mk.injEq] at h
        obtain ⟨-, h2⟩ := h
        subst h2
        intro dd hdd
        rw [List.mem_append] at hdd
        rcases hdd with hdd | hdd
        · exact process_schedule_step_subs env campaigns x_accounts dmas assets
            schedule now_utc db t db1 subs1 hstep dd hdd
        · exact ih db1 db2 subs2 htimes dd hdd

/-- Counterexample for C2: a draft in status "failed" whose schedule is
re-offered as due by the legacy path IS re-submitted to the Post Executor,
without any external status reset: at scan instant 0 the schedule is
reported due, `process_schedule` submits the failed draft (id 7) to
`post_draft`, and the draft transitions from "failed" to "posted". -/
theorem C2_counterexample :
    sample_failed_draft.status = "failed" ∧
    sample_schedule ∈ get_due_schedules 0 [sample_schedule] ∧
    (process_schedule sample_env_mock [sample_campaign] [] [] [] sample_schedule 0
        ⟨[sample_failed_draft], [], 100⟩).map
      (fun p => (p.2.map Draft.id, p.1.drafts.map Draft.status)) =
      .ok ([7], ["posted"]) := by
  refine ⟨rfl, by decide, rfl⟩

/-- Claim C2 (amended): a Draft already in `posted` or `skipped` is never
submitted to the Post Executor by the legacy schedule path, and the modern
due-drafts path only ever offers drafts in `pending` — so posted, failed and
skipped drafts are never re-submitted there.  (A `failed` draft re-offered
by the legacy path, however, is re-submitted — see the counterexample.) -/
theorem C2_no_resubmission (env : PostEnv) (campaigns : List Campaign)
    (x_accounts : List XAccount) (dmas : List DraftMediaAsset)
    (assets : List MediaAsset) (schedule : Schedule) (now_utc : Int) :
    (∀ (db db' : WorkerDB) (subs : List Draft),
      process_schedule env campaigns x_accounts dmas assets schedule now_utc
        db = .ok (db', subs) →
      ∀ d ∈ subs, d.status ≠ "posted" ∧ d.status ≠ "skipped") ∧
    (∀ (drafts : List Draft) (d : Draft),
      d ∈ get_due_drafts now_utc drafts → d.status = "pending") := by
  constructor
  · intro db db' subs h
    exact process_schedule_times_subs env campaigns x_accounts dmas assets
      schedule now_utc schedule.times db db' subs h
  · intro drafts d hd
    exact ((draft_is_due_iff now_utc d).mp
      (get_due_drafts_mem_due now_utc drafts d hd)).1

/-- Witness for C2 (amended): the pending draft submitted by the legacy path
in the concrete mock run is indeed neither posted nor skipped at submission
time. -/
theorem C2_witness :
    sample_pending_draft.status ≠ "posted" ∧
    sample_pending_draft.status ≠ "skipped" := by
  have h := (C2_no_resubmission sample_env_mock [sample_campaign] [] [] []
    sample_schedule 0).1 ⟨[sample_pending_draft], [], 100⟩ c2_witness_db
    [sample_pending_draft] rfl
  exact h sample_pending_draft (by simp)

/-- Claim C8: on success the cycle commits its unit of work and resets the
consecutive-failure counter to zero; on any database or uncaught error the
durable contents are unchanged (the `SQLAlchemyError` and generic handlers
roll back explicitly; the `httpx.HTTPError` handler does not, but closing
the `async with` session block discards the uncommitted unit of work), the
counter is incremented, and the error is not re-raised to the outer loop. -/
theorem C8_cycle_error_handling {α : Type} (body : Except CycleError (α → α))
    (st : CycleState α) :
    (∀ f, body = .ok f →
      (run_scheduler_cycle body st).state.durable = f st.durable ∧
      (run_scheduler_cycle body st).state.consecutive_failures = 0 ∧
      (run_scheduler_cycle body st).reraised = false) ∧
    (∀ e, body = .error e →
      (run_scheduler_cycle body st).state.durable = st.durable ∧
      (run_scheduler_cycle body st).state.consecutive_failures =
        st.consecutive_failures + 1 ∧
      (run_scheduler_cycle body st).reraised = false) := by
  constructor
  · rintro f rfl
    exact ⟨rfl, rfl, rfl⟩
  · rintro e rfl
    cases e <;> exact ⟨rfl, rfl, rfl⟩

/-- Witness for C8: a database error in a concrete cycle leaves the durable
contents at 0, bumps the failure counter from 3 to 4, and is not re-raised. -/
theorem C8_witness :
    (run_scheduler_cycle (.error CycleError.db_error)
      (⟨0, 3⟩ : CycleState Nat)).state.durable = 0 ∧
    (run_scheduler_cycle (.error CycleError.db_error)
      (⟨0, 3⟩ : CycleState Nat)).state.consecutive_failures = 4 ∧
    (run_scheduler_cycle (.error CycleError.db_error)
      (⟨0, 3⟩ : CycleState Nat)).reraised = false := by
  exact (C8_cycle_error_handling (.error CycleError.db_error)
    (⟨0, 3⟩ : CycleState Nat)).2 CycleError.db_error rfl

theorem process_media_item_cached (env : PostEnv) (xa : Option XAccount)
    (item : DraftMediaAsset × Option MediaAsset) (acc : MediaScan)
    (a : MediaAsset) (mid : String)
    (ha : item.2 = some a) (hmid : a.x_media_id = some mid) :
    process_media_item env xa item acc =
      .ok { acc with media_ids := acc.media_ids ++ [mid] } := by
  obtain ⟨dma, a?⟩ := item
  simp only at ha
  subst ha
  simp [process_media_item, hmid]

theorem process_media_item_uploads (env : PostEnv) (xa : Option XAccount)
    (item : DraftMediaAsset × Option MediaAsset) (acc acc' : MediaScan)
    (h : process_media_item env xa item acc = .ok acc') :
    acc'.uploads = acc.uploads ∨
      ∃ a, item.2 = some a ∧ a.x_media_id = none ∧
        acc'.uploads = acc.uploads ++ [a.id] := by
  obtain ⟨dma, a?⟩ := item
  rcases a? with _ | a
  · simp only [process_media_item] at h
    replace h := Except.ok.inj h
    subst h
    exact Or.inl rfl
  · rcases hmid : a.x_media_id with _ | mid
    · cases hfile : env.fileExists (env.resolve a.path) with
      | false =>
        simp only [process_media_item, hmid, hfile, reduceIte] at h
        exact absurd h (by simp)
      | true =>
        simp only [process_media_item, hmid, hfile, reduceIte] at h
        split at h
        · split at h
          · replace h := Except.ok.inj h
            subst h
            exact Or.inr ⟨a, rfl, hmid, rfl⟩
          · replace h := Except.ok.inj h
            subst h
            exact Or.inr ⟨a, rfl, hmid, rfl⟩
        · split at h
          · replace h := Except.ok.inj h
            subst h
            exact Or.inl rfl
          · replace h := Except.ok.inj h
            subst h
            exact Or.inl rfl
    · rw [process_media_item_cached env xa (dma, some a) acc a mid rfl hmid] at h
      replace h := Except.ok.inj h
      subst h
      exact Or.inl rfl

theorem process_media_list_uploads (env : PostEnv) (xa : Option XAccount) :
    ∀ (l : List (DraftMediaAsset × Option MediaAsset)) (acc res : MediaScan),
      process_media_list env xa l acc = .ok res →
      ∀ i ∈ res.uploads, i ∈ acc.uploads ∨
        ∃ p ∈ l, ∃ a, p.2 = some a ∧ a.x_media_id = none ∧ a.id = i := by
  intro l
  induction l with
  | nil =>
    intro acc res h i hi
    replace h := Except.ok.inj h
    subst h
    exact Or.inl hi
  | cons p rest ih =>
    intro acc res h i hi
    unfold process_media_list at h
    split at h
    · exact absurd h (by simp)
    · rename_i acc' hitem
      rcases ih acc' res h i hi with hin | ⟨p', hp', hex⟩
      · rcases process_media_item_uploads env xa p acc acc' hitem with
          hsame | ⟨a, ha, hnone, happ⟩
        · rw [hsame] at hin
          exact Or.inl hin
        · rw [happ, List.mem_append] at hin
          rcases hin with hin | hin
          · exact Or.inl hin
          · rw [List.mem_singleton] at hin
            exact Or.inr ⟨p, List.mem_cons_self p rest, a, ha, hnone, hin.symm⟩
      · exact Or.inr ⟨p', List.mem_cons_of_mem p hp', hex⟩

/-- Claim C9: a MediaAsset with a cached platform media id is never passed
to the upload protocol again.  The per-asset step on a cached asset appends
the cached id to the media-id list and changes nothing else — in every
environment, mock or live, so the cache check precedes all upload logic —
and across a whole media phase, every asset id passed to upload comes from
an association whose asset carried no cached id. -/
theorem C9_cached_media_not_reuploaded :
    (∀ (env : PostEnv) (xa : Option XAccount)
       (item : DraftMediaAsset × Option MediaAsset) (acc : MediaScan)
       (a : MediaAsset) (mid : String),
      item.2 = some a → a.x_media_id = some mid →
      process_media_item env xa item acc =
        .ok { acc with media_ids := acc.media_ids ++ [mid] }) ∧
    (∀ (env : PostEnv) (xa : Option XAccount)
       (items : List (DraftMediaAsset × Option MediaAsset)) (scan : MediaScan),
      process_media env xa items = .ok scan →
      ∀ i ∈ scan.uploads, ∃ p ∈ items, ∃ a, p.2 = some a ∧
        a.x_media_id = none ∧ a.id = i) := by
  constructor
  · exact process_media_item_cached
  · intro env xa items scan h i hi
    rcases process_media_list_uploads env xa
        (List.insertionSort media_order items) MediaScan.empty scan h i hi with
      hin | ⟨p, hp, hex⟩
    · exact absurd hin (by simp [MediaScan.empty])
    · exact ⟨p, (List.mem_insertionSort media_order).mp hp, hex⟩

/-- Witness for C9: the asset with cached id "m1" is reused — the step
yields exactly the cached id, no upload, no cache write. -/
theorem C9_witness :
    process_media_item sample_env_mock none
      (sample_dma, some sample_asset_cached) MediaScan.empty =
      .ok ⟨["m1"], [], [], []⟩ := by
  exact C9_cached_media_not_reuploaded.1 sample_env_mock none
    (sample_dma, some sample_asset_cached) MediaScan.empty
    sample_asset_cached "m1" rfl rfl

/-- Claim C10 (implicit): in mock mode, an uncached media asset whose
resolved file exists on disk gets the synthetic identifier
`mock_media_<asset id>` written into its persistent `x_media_id` cache field
(collected into the media-id list, with no upload call); and once the asset
carries that cached value, every later attempt — under any environment,
mock or live — reuses the synthetic id instead of uploading. -/
theorem C10_mock_media_id_cached :
    (∀ (env : PostEnv) (xa : Option XAccount) (dma : DraftMediaAsset)
       (a : MediaAsset) (acc : MediaScan),
      env.svc.is_mock = true → a.x_media_id = none →
      env.fileExists (env.resolve a.path) = true →
      process_media_item env xa (dma, some a) acc =
        .ok { acc with
              media_ids := acc.media_ids ++ ["mock_media_" ++ toString a.id],
              writes := acc.writes ++ [(a.id, "mock_media_" ++ toString a.id)] }) ∧
    (∀ (env' : PostEnv) (xa' : Option XAccount) (dma' : DraftMediaAsset)
       (a : MediaAsset) (acc' : MediaScan),
      process_media_item env' xa'
        (dma', some { a with x_media_id := some ("mock_media_" ++ toString a.id) })
        acc' =
        .ok { acc' with
              media_ids := acc'.media_ids ++ ["mock_media_" ++ toString a.id] }) := by
  constructor
  · intro env xa dma a acc hmock hmid hfile
    simp [process_media_item, hmock, hmid, hfile]
  · intro env' xa' dma' a acc'
    exact process_media_item_cached env' xa'
      (dma', some { a with x_media_id := some ("mock_media_" ++ toString a.id) })
      acc' _ _ rfl rfl

/-- Witness for C10: the uncached asset 12 gets `mock_media_12` cached and
collected in mock mode, and the updated asset is afterwards reused as-is. -/
theorem C10_witness :
    process_media_item sample_env_mock none
      (sample_dma, some sample_asset_uncached) MediaScan.empty =
      .ok ⟨["mock_media_12"], [], [], [(12, "mock_media_12")]⟩ ∧
    process_media_item sample_env_live none
      (sample_dma, some { sample_asset_uncached with
        x_media_id := some "mock_media_12" }) MediaScan.empty =
      .ok ⟨["mock_media_12"], [], [], []⟩ := by
  constructor
  · exact C10_mock_media_id_cached.1 sample_env_mock none sample_dma
      sample_asset_uncached MediaScan.empty rfl rfl rfl
  · exact C10_mock_media_id_cached.2 sample_env_live none sample_dma
      sample_asset_uncached MediaScan.empty
